import Mathlib

/-!
Verification development for the EducatorAI generation service.

The development shallowly embeds the request-lifecycle contract of the
generation service: the `AIService` facade (`models/ai_service.py`), the
request/response schema and its validation (`api/models.py`), the route
handler (`api/routes.py`), and the configured defaults (`config.py`).

Modelling conventions:
- Python `float` parameters (temperature, top_p) are modelled as `ℚ`;
  every comparison the claims make is between exact decimal constants.
- The blocking HuggingFace pipeline call is an external effect; it is
  modelled as an oracle `pipe : String → GenParams → Except String String`
  mapping the effective prompt and effective parameters to either raw
  output text or a raised exception message.
- Python's `str.strip()` is modelled by `pyStrip`, dropping whitespace
  characters from both ends.
- Python attribute deletion (`del self.model`) is modelled by setting the
  corresponding `Option` field to `none`; the handles themselves are
  opaque and modelled as `Unit`.
-/

namespace EducatorAI

/-- Model of Python `str.strip()`: remove leading and trailing whitespace. -/
def pyStrip (s : String) : String :=
  String.mk (((s.data.dropWhile Char.isWhitespace).reverse.dropWhile Char.isWhitespace).reverse)

/-- Configuration settings, from `config.py` (`Settings`): the fields the
generation path reads. -/
structure Settings where
  model_name : String
  max_length : Int
  temperature : ℚ
  top_p : ℚ
deriving DecidableEq

/-- The global settings instance (`config.py` lines 13-17): defaults
`max_length=512`, `temperature=0.7`, `top_p=0.9`. -/
def settings : Settings :=
  { model_name := "ibm-granite/granite-3.3-2b-instruct"
    max_length := 512
    temperature := 7/10
    top_p := 9/10 }

/-- Content type enumeration from `api/models.py` (`ContentType`). The
Python member `EXAMPLE` is rendered `exampleType` because `example` is a
Lean keyword. -/
inductive ContentType where
  | explanation
  | summary
  | quiz
  | lesson
  | exampleType
  | definition
deriving DecidableEq

/-- Instruction text per content type, from `_enhance_prompt_by_type`
(`api/routes.py` lines 106-113). -/
def typeInstructions : ContentType → String
  | ContentType.explanation =>
      "Provide a clear, detailed explanation of the following topic. Include examples and break down complex concepts into understandable parts:"
  | ContentType.summary =>
      "Create a concise summary of the following topic, highlighting the key points and main ideas:"
  | ContentType.quiz =>
      "Generate quiz questions and answers about the following topic. Include multiple choice, true/false, and short answer questions:"
  | ContentType.lesson =>
      "Create a structured lesson plan for teaching the following topic. Include objectives, activities, and assessment methods:"
  | ContentType.exampleType =>
      "Provide practical examples and real-world applications of the following concept:"
  | ContentType.definition =>
      "Provide a clear definition and explanation of the following term or concept, including its significance and context:"

/-- Model of `_enhance_prompt_by_type` (`api/routes.py` lines 104-115):
`type_instructions.get(content_type, type_instructions[EXPLANATION])`
followed by an f-string prepend. The `content_type` argument is `Option`
because the route can pass `None` (an explicit `null` in the request); a
value outside the closed enumeration behaves like the missing-key case of
`dict.get`, which `none` models. -/
def enhancePromptByType (prompt : String) (content_type : Option ContentType) : String :=
  let instruction :=
    match content_type with
    | some t => typeInstructions t
    | none => typeInstructions ContentType.explanation
  instruction ++ "\n\n" ++ prompt

/-- Service state, from `AIService.__init__` (`models/ai_service.py`
lines 20-27). `model`, `tokenizer`, `pipeline` start as `None`; the
thread-pool executor is tracked only through whether it has been shut
down; `_ready` starts `False`. Device probing (`torch.cuda`) does not
affect any claim and is not modelled. -/
structure AIService where
  model : Option Unit
  tokenizer : Option Unit
  pipeline : Option Unit
  ready : Bool
  executorShutdown : Bool
deriving DecidableEq

/-- The freshly constructed service (`AIService.__init__`). -/
def AIService.new : AIService :=
  { model := none, tokenizer := none, pipeline := none
    ready := false, executorShutdown := false }

/-- Model of `AIService.is_ready` (`models/ai_service.py` lines 85-87):
`self._ready and self.pipeline is not None`. -/
def AIService.is_ready (s : AIService) : Bool :=
  s.ready && s.pipeline.isSome

/-- Outcome of the external resource-loading work inside `_load_model`:
either all three loads succeed, or one of the three sequential steps
(tokenizer, model, pipeline construction) raises. -/
inductive LoadOutcome where
  | success
  | failTokenizer
  | failModel
  | failPipeline
deriving DecidableEq

/-- Model of `AIService._load_model` (`models/ai_service.py` lines 49-83): assigns
`self.tokenizer`, then `self.model`, then `self.pipeline`; an exception at
any step leaves the earlier assignments in place and propagates (the
`except` clause logs and re-raises). Returns the updated state and the
raised message, if any. -/
def AIService.loadModel (s : AIService) : LoadOutcome → AIService × Option String
  | LoadOutcome.success =>
      ({ s with tokenizer := some (), model := some (), pipeline := some () }, none)
  | LoadOutcome.failTokenizer =>
      (s, some "Error loading tokenizer")
  | LoadOutcome.failModel =>
      ({ s with tokenizer := some () }, some "Error loading model")
  | LoadOutcome.failPipeline =>
      ({ s with tokenizer := some (), model := some () }, some "Error creating pipeline")

/-- Model of `AIService.initialize` (`models/ai_service.py` lines 29-47): runs
`_load_model` on the executor; on success sets `self._ready = True`; on
failure the exception propagates (`raise`) and `_ready` is not touched.
The name carries a `Service` suffix because `initialize` is reserved in
Lean. -/
def AIService.initializeService (s : AIService) (o : LoadOutcome) : AIService × Option String :=
  match AIService.loadModel s o with
  | (s1, none) => ({ s1 with ready := true }, none)
  | (s1, some e) => (s1, some e)

/-- Model of `AIService.cleanup` (`models/ai_service.py` lines 191-211): shuts the
executor down, conditionally deletes the model/tokenizer/pipeline
attributes (each `del` guarded by a truthiness test), and sets
`self._ready = False`. The function is total: no branch raises. -/
def AIService.cleanup (s : AIService) : AIService :=
  { s with
    executorShutdown := true
    model := if s.model.isSome then none else s.model
    tokenizer := if s.tokenizer.isSome then none else s.tokenizer
    pipeline := if s.pipeline.isSome then none else s.pipeline
    ready := false }

/-- The fixed instructional preamble of `_prepare_prompt`
(`models/ai_service.py` lines 140-147). -/
def systemPrompt : String :=
  "You are an expert educator and content creator. Your task is to generate high-quality educational content that is:\n- Clear and easy to understand\n- Accurate and factual\n- Engaging and informative\n- Appropriate for the target audience\n- Well-structured with examples when helpful\n\nPlease provide educational content based on the following request:"

/-- Model of `AIService._prepare_prompt` (`models/ai_service.py` lines 137-154).
`if context:` is Python truthiness: an absent context and an empty-string
context both take the no-context branch. -/
def preparePrompt (prompt : String) (context : Option String) : String :=
  match context with
  | some c =>
      if c = "" then systemPrompt ++ "\n\nRequest: " ++ prompt ++ "\n\nResponse:"
      else systemPrompt ++ "\n\nContext: " ++ c ++ "\n\nRequest: " ++ prompt ++ "\n\nResponse:"
  | none => systemPrompt ++ "\n\nRequest: " ++ prompt ++ "\n\nResponse:"

/-- Python `x or d` for an optional integer: `None` and `0` are falsy and
yield the default. Used by the parameter defaulting in `generate_text`
(`models/ai_service.py` lines 107-109). -/
def pyOrInt (x : Option Int) (d : Int) : Int :=
  match x with
  | none => d
  | some v => if v = 0 then d else v

/-- Python `x or d` for an optional float (modelled as `ℚ`): `None` and
`0.0` are falsy and yield the default. -/
def pyOrRat (x : Option ℚ) (d : ℚ) : ℚ :=
  match x with
  | none => d
  | some v => if v = 0 then d else v

/-- The effective generation parameters passed to the pipeline and echoed
in the result (`models/ai_service.py` lines 126-130). -/
structure GenParams where
  max_length : Int
  temperature : ℚ
  top_p : ℚ
deriving DecidableEq

/-- The dictionary returned by `AIService.generate_text` on success
(`models/ai_service.py` lines 122-131). -/
structure GenResult where
  generated_text : String
  prompt : String
  context : Option String
  parameters : GenParams
deriving DecidableEq

/-- The exceptions `AIService.generate_text` can raise: the
`RuntimeError("AI service is not ready")` fast-fail, or an exception
propagated from the pipeline call. -/
inductive GenError where
  | notReady
  | generation (msg : String)
deriving DecidableEq

/-- The text of `str(e)` for a `GenError`, as the route computes `error_msg`. -/
def GenError.message : GenError → String
  | GenError.notReady => "AI service is not ready"
  | GenError.generation msg => msg

/-- Model of `AIService.generate_text` (`models/ai_service.py` lines 89-135):
raises when `is_ready()` is false; otherwise composes the full prompt,
resolves effective parameters with Python `or` against the configured
defaults, dispatches `_generate_text_sync` (whose pipeline call and
propagated exceptions the oracle `pipe` models), strips the raw output
with `pyStrip` (`generated_text.strip()`), and returns the result
dictionary echoing the original prompt, the context and the effective
parameters. -/
def AIService.generate_text (s : AIService) (prompt : String)
    (max_length : Option Int) (temperature : Option ℚ) (top_p : Option ℚ)
    (context : Option String)
    (pipe : String → GenParams → Except String String) :
    Except GenError GenResult :=
  if AIService.is_ready s then
    match pipe (preparePrompt prompt context)
        { max_length := pyOrInt max_length settings.max_length
          temperature := pyOrRat temperature settings.temperature
          top_p := pyOrRat top_p settings.top_p } with
    | Except.ok out =>
        Except.ok
          { generated_text := pyStrip out
            prompt := prompt
            context := context
            parameters :=
              { max_length := pyOrInt max_length settings.max_length
                temperature := pyOrRat temperature settings.temperature
                top_p := pyOrRat top_p settings.top_p } }
    | Except.error e => Except.error (GenError.generation e)
  else Except.error GenError.notReady

/-- A raw inbound request body, before pydantic validation
(`api/models.py`, `GenerateRequest` fields). `content_type` distinguishes
an omitted field (`none`, which takes the declared default `EXPLANATION`)
from an explicit `null` (`some none`, allowed by `Optional[ContentType]`). -/
structure RawGenerateRequest where
  prompt : String
  content_type : Option (Option ContentType)
  context : Option String
  max_length : Option Int
  temperature : Option ℚ
  top_p : Option ℚ
deriving DecidableEq

/-- A request that passed validation (`api/models.py` `GenerateRequest`
after field constraints and validators ran): the prompt is stored
stripped, the context stripped when present. -/
structure GenerateRequest where
  prompt : String
  content_type : Option ContentType
  context : Option String
  max_length : Option Int
  temperature : Option ℚ
  top_p : Option ℚ
deriving DecidableEq

/-- A pydantic `Field(ge, le)` range constraint on an optional integer:
`true` when a present value is out of range. -/
def outOfRangeInt (x : Option Int) (lo hi : Int) : Bool :=
  match x with
  | some v => decide (v < lo) || decide (hi < v)
  | none => false

/-- A pydantic `Field(ge, le)` range constraint on an optional float
(modelled as `ℚ`): `true` when a present value is out of range. -/
def outOfRangeRat (x : Option ℚ) (lo hi : ℚ) : Bool :=
  match x with
  | some v => decide (v < lo) || decide (hi < v)
  | none => false

/-- Pydantic validation of `GenerateRequest` (`api/models.py` lines
18-72): the field constraints `min_length=1`/`max_length=1000` on
`prompt`, `max_length=2000` on `context`, `ge/le` bounds on `max_length`,
`temperature` and `top_p`, then the custom validators: `validate_prompt`
rejects a whitespace-only prompt and stores `v.strip()`;
`validate_context` stores the stripped context. An omitted `content_type`
takes the default `ContentType.EXPLANATION`. -/
def validateGenerateRequest (r : RawGenerateRequest) : Except String GenerateRequest :=
  if r.prompt.length < 1 then
    Except.error "prompt: ensure this value has at least 1 characters"
  else if 1000 < r.prompt.length then
    Except.error "prompt: ensure this value has at most 1000 characters"
  else if (match r.context with | some c => decide (2000 < c.length) | none => false) then
    Except.error "context: ensure this value has at most 2000 characters"
  else if outOfRangeInt r.max_length 50 1000 then
    Except.error "max_length: value out of range"
  else if outOfRangeRat r.temperature (1/10) 2 then
    Except.error "temperature: value out of range"
  else if outOfRangeRat r.top_p (1/10) 1 then
    Except.error "top_p: value out of range"
  else if pyStrip r.prompt = "" then
    Except.error "Prompt cannot be empty"
  else
    Except.ok
      { prompt := pyStrip r.prompt
        content_type :=
          match r.content_type with
          | none => some ContentType.explanation
          | some v => v
        context := r.context.map pyStrip
        max_length := r.max_length
        temperature := r.temperature
        top_p := r.top_p }

/-- The response model `GenerateResponse` (`api/models.py` lines 74-84). -/
structure GenerateResponse where
  success : Bool
  generated_text : Option String
  prompt : Option String
  context : Option String
  content_type : Option ContentType
  parameters : Option GenParams
  error : Option String
  processing_time : ℚ
deriving DecidableEq

/-- An `HTTPException` escaping the route handler. The only one the
`/generate` handler raises is the 503 from the readiness check
(`api/routes.py` lines 37-38); the `except HTTPException: raise` clause
re-raises it unchanged. -/
inductive HTTPError where
  | serviceUnavailable (detail : String)
deriving DecidableEq

/-- The `/generate` route handler `generate_content` (`api/routes.py`
lines 26-78): raises 503 when `is_ready()` is false; otherwise enhances
the prompt by content type and calls `AIService.generate_text`. A
successful call yields a response with `success=True` echoing the
request's prompt/context/content_type and the result's text and
parameters; any exception from the call is caught by `except Exception`
and converted to a response with `success=False` and `error=str(e)`.
Wall-clock `processing_time` is supplied by the `elapsed` parameter. -/
def generate_content (req : GenerateRequest) (s : AIService)
    (pipe : String → GenParams → Except String String) (elapsed : ℚ) :
    Except HTTPError GenerateResponse :=
  if AIService.is_ready s then
    match AIService.generate_text s (enhancePromptByType req.prompt req.content_type)
        req.max_length req.temperature req.top_p req.context pipe with
    | Except.ok result =>
        Except.ok
          { success := true
            generated_text := some result.generated_text
            prompt := some req.prompt
            context := req.context
            content_type := req.content_type
            parameters := some result.parameters
            error := none
            processing_time := elapsed }
    | Except.error e =>
        Except.ok
          { success := false
            generated_text := none
            prompt := some req.prompt
            context := req.context
            content_type := req.content_type
            parameters := none
            error := some (GenError.message e)
            processing_time := elapsed }
  else Except.error (HTTPError.serviceUnavailable "AI model is not ready. Please try again later.")

/-- A lifecycle event applied to the service singleton: an
`initialize()` call with a given load outcome, or a `cleanup()` call.
`generate_text` never writes the lifecycle fields, so it does not appear. -/
inductive Event where
  | initCall (o : LoadOutcome)
  | cleanupCall
deriving DecidableEq

/-- Apply one lifecycle event to the service state (exceptions from a
failing `initialize()` propagate to the caller; the state they leave
behind is what matters here). -/
def stepEvent (s : AIService) : Event → AIService
  | Event.initCall o => (AIService.initializeService s o).1
  | Event.cleanupCall => AIService.cleanup s

/-- The service state after a sequence of lifecycle events, starting from
the freshly constructed singleton. -/
def runEvents (trace : List Event) : AIService :=
  trace.foldl stepEvent AIService.new

/-- Predicate `LiveInit trace`: holds when the trace contains a successful
`initialize()` that is not followed by any later `cleanup()`. -/
def LiveInit : List Event → Prop
  | [] => False
  | Event.initCall LoadOutcome.success :: rest => Event.cleanupCall ∉ rest ∨ LiveInit rest
  | _ :: rest => LiveInit rest

end EducatorAI

namespace EducatorAI.LockModel

/-- Program counter of one worker thread executing
`AIService._generate_text_sync` (`models/ai_service.py` lines 156-189):
not yet entered; inside `with self._lock` but before the pipeline call;
executing the pipeline call (the resource boundary); pipeline call
returned but lock not yet released; exited the `with` block. -/
inductive ThreadPC where
  | idle
  | locked
  | inCall
  | finished
  | done
deriving DecidableEq

/-- Global state of `n` concurrent `_generate_text_sync` executions:
who holds `self._lock`, and each thread's program counter. -/
structure LockState (n : Nat) where
  holder : Option (Fin n)
  pcs : Fin n → ThreadPC

/-- All threads about to enter `_generate_text_sync`; the lock is free. -/
def initLockState (n : Nat) : LockState n :=
  { holder := none, pcs := fun _ => ThreadPC.idle }

/-- Interleaving semantics of `n` threads running `_generate_text_sync`.
`with self._lock:` acquires only when the lock is free; the pipeline call
happens strictly inside the held region; leaving the `with` block
releases the lock. -/
inductive LockStep (n : Nat) : LockState n → LockState n → Prop where
  | acquire (t : Fin n) (s : LockState n) :
      s.pcs t = ThreadPC.idle → s.holder = none →
      LockStep n s { holder := some t, pcs := Function.update s.pcs t ThreadPC.locked }
  | startCall (t : Fin n) (s : LockState n) :
      s.pcs t = ThreadPC.locked →
      LockStep n s { holder := s.holder, pcs := Function.update s.pcs t ThreadPC.inCall }
  | endCall (t : Fin n) (s : LockState n) :
      s.pcs t = ThreadPC.inCall →
      LockStep n s { holder := s.holder, pcs := Function.update s.pcs t ThreadPC.finished }
  | release (t : Fin n) (s : LockState n) :
      s.pcs t = ThreadPC.finished → s.holder = some t →
      LockStep n s { holder := none, pcs := Function.update s.pcs t ThreadPC.done }

/-- States reachable by interleaving the `n` threads from the start. -/
inductive Reachable (n : Nat) : LockState n → Prop where
  | start : Reachable n (initLockState n)
  | step {s s' : LockState n} : Reachable n s → LockStep n s s' → Reachable n s'

/-- A thread is inside the `with self._lock` block (the exclusive guard
is held by it for this whole region, which contains the full inference
call). -/
def inCritical (pc : ThreadPC) : Prop :=
  pc = ThreadPC.locked ∨ pc = ThreadPC.inCall ∨ pc = ThreadPC.finished

end EducatorAI.LockModel

namespace EducatorAI

/-- A service state in which loading succeeded: all three handles are
present and the ready flag is set. Used as a concrete input by witnesses. -/
def readyService : AIService :=
  { model := some (), tokenizer := some (), pipeline := some ()
    ready := true, executorShutdown := false }

/-- A concrete validated request used as a witness input. -/
def wReq : GenerateRequest :=
  { prompt := "Photosynthesis", content_type := some ContentType.definition
    context := none, max_length := none, temperature := none, top_p := none }

/-- Claim C1: calling `generate_text` while the service is not ready
fails fast with the unavailable-service signal
(`RuntimeError("AI service is not ready")`, modelled `GenError.notReady`)
before any generation is attempted: the result is that error for every
pipeline oracle, so no generation output (not even a truncated one) can
influence it, and no other fault escapes. -/
theorem generate_text_not_ready_fails_fast (s : AIService)
    (h : AIService.is_ready s = false) (prompt : String)
    (max_length : Option Int) (temperature : Option ℚ) (top_p : Option ℚ)
    (context : Option String) (pipe : String → GenParams → Except String String) :
    AIService.generate_text s prompt max_length temperature top_p context pipe =
      Except.error GenError.notReady := by
  simp [AIService.generate_text, h]

/-- Witness for C1: the freshly constructed service is not ready, and a
call against it yields exactly the not-ready error even though the
pipeline oracle would happily return output. -/
theorem generate_text_not_ready_fails_fast_witness :
    AIService.generate_text AIService.new "Photosynthesis" none none none none
        (fun _ _ => Except.ok "output") = Except.error GenError.notReady :=
  generate_text_not_ready_fails_fast AIService.new rfl "Photosynthesis" none none none none
    (fun _ _ => Except.ok "output")

/-- Claim C8: the prompt enhancer never rejects: an unrecognized content
type (the missing-key case of `dict.get`, modelled `none`) silently falls
back to the `EXPLANATION` instruction, and each of the six known content
types gets its own instruction prepended to the prompt. -/
theorem enhance_prompt_fallback_and_known_types (prompt : String) :
    enhancePromptByType prompt none =
        typeInstructions ContentType.explanation ++ "\n\n" ++ prompt ∧
      ∀ t : ContentType,
        enhancePromptByType prompt (some t) = typeInstructions t ++ "\n\n" ++ prompt :=
  ⟨rfl, fun _ => rfl⟩

/-- Claim C9: `cleanup()` on a service whose resource attributes are
still empty (initialize never succeeded) is total — modelled by `cleanup`
being a plain function with no error channel — and acts as a no-op on the
empty resource apart from shutting the executor down and forcing the
ready flag off; `is_ready()` is false afterwards. -/
theorem cleanup_on_empty_resource_noop (s : AIService)
    (hm : s.model = none) (ht : s.tokenizer = none) (hp : s.pipeline = none) :
    AIService.cleanup s = { s with executorShutdown := true, ready := false } ∧
      AIService.is_ready (AIService.cleanup s) = false := by
  constructor
  · simp [AIService.cleanup, hm, ht, hp]
  · simp [AIService.is_ready, AIService.cleanup]

/-- Witness for C9: cleanup of the freshly constructed service. -/
theorem cleanup_on_empty_resource_noop_witness :
    AIService.cleanup AIService.new =
        { AIService.new with executorShutdown := true, ready := false } ∧
      AIService.is_ready (AIService.cleanup AIService.new) = false :=
  cleanup_on_empty_resource_noop AIService.new rfl rfl rfl

/-- Claim C10: calling `AIService.generate_text` directly with present
but falsy parameter values (`max_length=0`, `temperature=0.0`,
`top_p=0.0`) treats them as absent: the configured defaults (512, 0.7,
0.9) are both passed to the pipeline call and echoed in the result's
parameters, because defaulting uses Python's `or` rather than a `None`
check. -/
theorem falsy_params_take_defaults (s : AIService)
    (h : AIService.is_ready s = true) (prompt : String) (out : String)
    (pipe : String → GenParams → Except String String)
    (hp : pipe (preparePrompt prompt none)
        { max_length := 512, temperature := 7/10, top_p := 9/10 } = Except.ok out) :
    AIService.generate_text s prompt (some 0) (some 0) (some 0) none pipe =
      Except.ok
        { generated_text := pyStrip out
          prompt := prompt
          context := none
          parameters := { max_length := 512, temperature := 7/10, top_p := 9/10 } } := by
  simp only [AIService.generate_text, h, if_true, pyOrInt, pyOrRat, settings,
    if_pos rfl]
  rw [hp]

/-- Claim C6: every structured response of the `/generate` handler — the
success branch and the failure branch alike — echoes the request's
prompt and content type unchanged. -/
theorem response_echoes_prompt_and_content_type (req : GenerateRequest)
    (s : AIService) (pipe : String → GenParams → Except String String)
    (elapsed : ℚ) (resp : GenerateResponse)
    (h : generate_content req s pipe elapsed = Except.ok resp) :
    resp.prompt = some req.prompt ∧ resp.content_type = req.content_type := by
  unfold generate_content at h
  split at h
  · split at h
    · cases h
      exact ⟨rfl, rfl⟩
    · cases h
      exact ⟨rfl, rfl⟩
  · exact absurd h (by simp)

/-- The success response for the echo witness: the request with prompt
"Photosynthesis" and content type `definition` against a ready service. -/
def wRespEchoS : GenerateResponse :=
  { success := true, generated_text := some (pyStrip "OUT")
    prompt := some "Photosynthesis", context := none
    content_type := some ContentType.definition
    parameters := some { max_length := 512, temperature := 7/10, top_p := 9/10 }
    error := none, processing_time := 0 }

/-- The failure response for the echo witness: the same request when the
pipeline raises. -/
def wRespEchoF : GenerateResponse :=
  { success := false, generated_text := none
    prompt := some "Photosynthesis", context := none
    content_type := some ContentType.definition
    parameters := none, error := some "CUDA out of memory"
    processing_time := 0 }

/-- Witness for C6: prompt "Photosynthesis" with content type
`definition` echoes back in both the success and the failure response. -/
theorem response_echoes_prompt_and_content_type_witness :
    (wRespEchoS.prompt = some "Photosynthesis" ∧
        wRespEchoS.content_type = some ContentType.definition) ∧
      (wRespEchoF.prompt = some "Photosynthesis" ∧
        wRespEchoF.content_type = some ContentType.definition) :=
  ⟨response_echoes_prompt_and_content_type wReq readyService
      (fun _ _ => Except.ok "OUT") 0 wRespEchoS rfl,
    response_echoes_prompt_and_content_type wReq readyService
      (fun _ _ => Except.error "CUDA out of memory") 0 wRespEchoF rfl⟩

/-- Claim C5: for every request past validation, the handler never lets
a generation failure escape as an unhandled fault: when the service is
ready it always returns a structured response, with `success=false`
implying `error` is populated; the one exception is the not-yet-ready
condition, surfaced as the distinct 503 service-unavailable signal
before generation is attempted. -/
theorem route_error_handling (req : GenerateRequest) (s : AIService)
    (pipe : String → GenParams → Except String String) (elapsed : ℚ) :
    (AIService.is_ready s = false →
      generate_content req s pipe elapsed =
        Except.error (HTTPError.serviceUnavailable
          "AI model is not ready. Please try again later.")) ∧
    (AIService.is_ready s = true →
      ∃ resp : GenerateResponse,
        generate_content req s pipe elapsed = Except.ok resp ∧
          (resp.success = false → ∃ msg, resp.error = some msg)) := by
  constructor
  · intro h
    simp [generate_content, h]
  · intro h
    unfold generate_content
    rw [h]
    simp only [if_true]
    cases hg : AIService.generate_text s (enhancePromptByType req.prompt req.content_type)
        req.max_length req.temperature req.top_p req.context pipe with
    | ok result =>
        refine ⟨_, rfl, fun hf => ?_⟩
        exact absurd hf (by simp)
    | error e =>
        exact ⟨_, rfl, fun _ => ⟨GenError.message e, rfl⟩⟩

/-- Witness for C5: against a not-ready service the handler raises the
503 signal; against a ready service whose pipeline raises, it returns a
structured response with a populated error. -/
theorem route_error_handling_witness :
    generate_content wReq AIService.new (fun _ _ => Except.error "boom") 0 =
        Except.error (HTTPError.serviceUnavailable
          "AI model is not ready. Please try again later.") ∧
      ∃ resp : GenerateResponse,
        generate_content wReq readyService (fun _ _ => Except.error "boom") 0 =
            Except.ok resp ∧
          (resp.success = false → ∃ msg, resp.error = some msg) :=
  ⟨(route_error_handling wReq AIService.new (fun _ _ => Except.error "boom") 0).1 rfl,
    (route_error_handling wReq readyService (fun _ _ => Except.error "boom") 0).2 rfl⟩

/-- Claim C7: a request whose prompt is empty after stripping is rejected
by validation (so no validated `GenerateRequest` exists and the facade is
never reached), and every prompt that passes validation is stored
stripped and non-empty. -/
theorem empty_prompt_rejected_and_stored_trimmed :
    (∀ raw : RawGenerateRequest, pyStrip raw.prompt = "" →
        ∃ e, validateGenerateRequest raw = Except.error e) ∧
      (∀ (raw : RawGenerateRequest) (req : GenerateRequest),
        validateGenerateRequest raw = Except.ok req →
          req.prompt = pyStrip raw.prompt ∧ req.prompt ≠ "") := by
  constructor
  · intro raw h
    simp only [validateGenerateRequest, h]
    repeat' split
    all_goals first
      | exact ⟨_, rfl⟩
      | simp_all
  · intro raw req h
    unfold validateGenerateRequest at h
    repeat' split at h
    all_goals try exact Except.noConfusion h
    all_goals injection h with h
    all_goals subst h
    all_goals refine ⟨rfl, ?_⟩
    all_goals assumption

/-- A concrete raw request whose prompt is whitespace-only. -/
def wEmptyRaw : RawGenerateRequest :=
  { prompt := "   ", content_type := none, context := none
    max_length := none, temperature := none, top_p := none }

/-- A concrete raw request with a well-formed prompt. -/
def wGoodRaw : RawGenerateRequest :=
  { prompt := " Photosynthesis ", content_type := none, context := none
    max_length := none, temperature := none, top_p := none }

/-- The validated form of `wGoodRaw`: prompt stripped, the omitted
content type defaulted to `explanation`. -/
def wGoodReq : GenerateRequest :=
  { prompt := "Photosynthesis", content_type := some ContentType.explanation
    context := none, max_length := none, temperature := none, top_p := none }

/-- Witness for C7: the whitespace-only prompt is rejected, and the
accepted prompt " Photosynthesis " is stored as "Photosynthesis",
non-empty. -/
theorem empty_prompt_rejected_and_stored_trimmed_witness :
    (∃ e, validateGenerateRequest wEmptyRaw = Except.error e) ∧
      (wGoodReq.prompt = pyStrip wGoodRaw.prompt ∧ wGoodReq.prompt ≠ "") :=
  ⟨empty_prompt_rejected_and_stored_trimmed.1 wEmptyRaw (by decide),
    empty_prompt_rejected_and_stored_trimmed.2 wGoodRaw wGoodReq rfl⟩

/-- Field bounds guaranteed by validation: a request accepted by
`validateGenerateRequest` has every present numeric parameter inside the
declared pydantic bounds. -/
theorem validate_ok_field_bounds (raw : RawGenerateRequest) (req : GenerateRequest)
    (h : validateGenerateRequest raw = Except.ok req) :
    (∀ v, req.max_length = some v → 50 ≤ v ∧ v ≤ 1000) ∧
      (∀ v, req.temperature = some v → 1/10 ≤ v ∧ v ≤ 2) ∧
      (∀ v, req.top_p = some v → 1/10 ≤ v ∧ v ≤ 1) := by
  have hshape : req.max_length = raw.max_length ∧ req.temperature = raw.temperature ∧
      req.top_p = raw.top_p := by
    unfold validateGenerateRequest at h
    repeat' split at h
    all_goals try exact Except.noConfusion h
    all_goals injection h with h
    all_goals subst h
    all_goals exact ⟨rfl, rfl, rfl⟩
  have hml : outOfRangeInt raw.max_length 50 1000 = false := by
    cases hc : outOfRangeInt raw.max_length 50 1000 with
    | false => rfl
    | true =>
        exfalso
        unfold validateGenerateRequest at h
        rw [hc] at h
        simp only [eq_self_iff_true, if_true] at h
        repeat' split at h
        all_goals exact Except.noConfusion h
  have htemp : outOfRangeRat raw.temperature (1/10) 2 = false := by
    cases hc : outOfRangeRat raw.temperature (1/10) 2 with
    | false => rfl
    | true =>
        exfalso
        unfold validateGenerateRequest at h
        rw [hc] at h
        simp only [eq_self_iff_true, if_true] at h
        repeat' split at h
        all_goals exact Except.noConfusion h
  have htop : outOfRangeRat raw.top_p (1/10) 1 = false := by
    cases hc : outOfRangeRat raw.top_p (1/10) 1 with
    | false => rfl
    | true =>
        exfalso
        unfold validateGenerateRequest at h
        rw [hc] at h
        simp only [eq_self_iff_true, if_true] at h
        repeat' split at h
        all_goals exact Except.noConfusion h
  refine ⟨fun v hv => ?_, fun v hv => ?_, fun v hv => ?_⟩
  · have hr : raw.max_length = some v := by rw [← hshape.1]; exact hv
    simp only [outOfRangeInt, hr, Bool.or_eq_false_iff, decide_eq_false_iff_not] at hml
    omega
  · have hr : raw.temperature = some v := by rw [← hshape.2.1]; exact hv
    simp only [outOfRangeRat, hr, Bool.or_eq_false_iff, decide_eq_false_iff_not] at htemp
    exact ⟨not_lt.mp htemp.1, not_lt.mp htemp.2⟩
  · have hr : raw.top_p = some v := by rw [← hshape.2.2]; exact hv
    simp only [outOfRangeRat, hr, Bool.or_eq_false_iff, decide_eq_false_iff_not] at htop
    exact ⟨not_lt.mp htop.1, not_lt.mp htop.2⟩

/-- A successful `generate_text` call echoes exactly the `or`-defaulted
effective parameters it passed to the pipeline. -/
theorem generate_text_ok_params {s : AIService} {prompt : String}
    {max_length : Option Int} {temperature : Option ℚ} {top_p : Option ℚ}
    {context : Option String} {pipe : String → GenParams → Except String String}
    {res : GenResult}
    (h : AIService.generate_text s prompt max_length temperature top_p context pipe =
      Except.ok res) :
    res.parameters =
      { max_length := pyOrInt max_length settings.max_length
        temperature := pyOrRat temperature settings.temperature
        top_p := pyOrRat top_p settings.top_p } := by
  unfold AIService.generate_text at h
  split at h
  · split at h
    · cases h
      rfl
    · exact Except.noConfusion h
  · exact Except.noConfusion h

/-- Claim C2: for every request that passed validation, the effective
parameters echoed in a successful response are the caller-supplied
values where present and the configured defaults (512, 0.7, 0.9) where
absent, and they always lie within the declared bounds
`max_length ∈ [50, 1000]`, `temperature ∈ [0.1, 2.0]`,
`top_p ∈ [0.1, 1.0]`. -/
theorem effective_params_within_bounds (raw : RawGenerateRequest)
    (req : GenerateRequest) (hv : validateGenerateRequest raw = Except.ok req)
    (s : AIService) (pipe : String → GenParams → Except String String)
    (elapsed : ℚ) (resp : GenerateResponse)
    (hr : generate_content req s pipe elapsed = Except.ok resp)
    (hs : resp.success = true) :
    ∃ ps : GenParams, resp.parameters = some ps ∧
      ps.max_length = req.max_length.getD settings.max_length ∧
      ps.temperature = req.temperature.getD settings.temperature ∧
      ps.top_p = req.top_p.getD settings.top_p ∧
      50 ≤ ps.max_length ∧ ps.max_length ≤ 1000 ∧
      1/10 ≤ ps.temperature ∧ ps.temperature ≤ 2 ∧
      1/10 ≤ ps.top_p ∧ ps.top_p ≤ 1 := by
  have hb := validate_ok_field_bounds raw req hv
  have hml : pyOrInt req.max_length settings.max_length =
        req.max_length.getD settings.max_length ∧
      50 ≤ pyOrInt req.max_length settings.max_length ∧
        pyOrInt req.max_length settings.max_length ≤ 1000 := by
    cases hm : req.max_length with
    | none => exact ⟨rfl, by decide, by decide⟩
    | some x =>
        have hx := hb.1 x hm
        have hx0 : ¬(x = 0) := by omega
        simp only [pyOrInt, Option.getD_some, if_neg hx0]
        exact ⟨trivial, hx.1, hx.2⟩
  have htv : pyOrRat req.temperature settings.temperature =
        req.temperature.getD settings.temperature ∧
      1/10 ≤ pyOrRat req.temperature settings.temperature ∧
        pyOrRat req.temperature settings.temperature ≤ 2 := by
    cases hm : req.temperature with
    | none => refine ⟨rfl, ?_, ?_⟩ <;> norm_num [pyOrRat, settings]
    | some x =>
        have hx := hb.2.1 x hm
        have hx0 : ¬(x = 0) := by
          intro h0
          rw [h0] at hx
          exact absurd hx.1 (by norm_num)
        simp only [pyOrRat, Option.getD_some, if_neg hx0]
        exact ⟨trivial, hx.1, hx.2⟩
  have hpv : pyOrRat req.top_p settings.top_p = req.top_p.getD settings.top_p ∧
      1/10 ≤ pyOrRat req.top_p settings.top_p ∧
        pyOrRat req.top_p settings.top_p ≤ 1 := by
    cases hm : req.top_p with
    | none => refine ⟨rfl, ?_, ?_⟩ <;> norm_num [pyOrRat, settings]
    | some x =>
        have hx := hb.2.2 x hm
        have hx0 : ¬(x = 0) := by
          intro h0
          rw [h0] at hx
          exact absurd hx.1 (by norm_num)
        simp only [pyOrRat, Option.getD_some, if_neg hx0]
        exact ⟨trivial, hx.1, hx.2⟩
  unfold generate_content at hr
  split at hr
  · split at hr
    · rename_i result heq
      have hp := generate_text_ok_params heq
      cases hr
      refine ⟨result.parameters, rfl, ?_, ?_, ?_, ?_, ?_, ?_, ?_, ?_, ?_⟩
      · rw [hp]; exact hml.1
      · rw [hp]; exact htv.1
      · rw [hp]; exact hpv.1
      · rw [hp]; exact hml.2.1
      · rw [hp]; exact hml.2.2
      · rw [hp]; exact htv.2.1
      · rw [hp]; exact htv.2.2
      · rw [hp]; exact hpv.2.1
      · rw [hp]; exact hpv.2.2
    · cases hr
      exact absurd hs (by simp)
  · exact Except.noConfusion hr

/-- Witness for C10: a ready service with all three parameters supplied
as zero generates with the configured defaults and echoes them. -/
theorem falsy_params_take_defaults_witness :
    AIService.generate_text readyService "Photosynthesis" (some 0) (some 0) (some 0) none
        (fun _ _ => Except.ok " generated text ") =
      Except.ok
        { generated_text := pyStrip " generated text "
          prompt := "Photosynthesis"
          context := none
          parameters := { max_length := 512, temperature := 7/10, top_p := 9/10 } } :=
  falsy_params_take_defaults readyService rfl "Photosynthesis" " generated text "
    (fun _ _ => Except.ok " generated text ") rfl

/-- The success response for the C2 witness: `wGoodReq` served by a ready
service, with the defaults applied. -/
def wRespParams : GenerateResponse :=
  { success := true, generated_text := some (pyStrip "Plants convert light")
    prompt := some "Photosynthesis", context := none
    content_type := some ContentType.explanation
    parameters := some { max_length := 512, temperature := 7/10, top_p := 9/10 }
    error := none, processing_time := 0 }

/-- Witness for C2: the validated request `wGoodReq` (all numeric fields
omitted) yields a successful response echoing parameters equal to the
defaults and inside the declared bounds. -/
theorem effective_params_within_bounds_witness :
    ∃ ps : GenParams, wRespParams.parameters = some ps ∧
      ps.max_length = wGoodReq.max_length.getD settings.max_length ∧
      ps.temperature = wGoodReq.temperature.getD settings.temperature ∧
      ps.top_p = wGoodReq.top_p.getD settings.top_p ∧
      50 ≤ ps.max_length ∧ ps.max_length ≤ 1000 ∧
      1/10 ≤ ps.temperature ∧ ps.temperature ≤ 2 ∧
      1/10 ≤ ps.top_p ∧ ps.top_p ≤ 1 :=
  effective_params_within_bounds wGoodRaw wGoodReq rfl readyService
    (fun _ _ => Except.ok "Plants convert light") 0 wRespParams rfl rfl

/-- Prepending any event preserves `LiveInit`. -/
theorem LiveInit.cons (e : Event) {rest : List Event} (h : LiveInit rest) :
    LiveInit (e :: rest) := by
  cases e with
  | cleanupCall => exact h
  | initCall o =>
      cases o with
      | success => exact Or.inr h
      | failTokenizer => exact h
      | failModel => exact h
      | failPipeline => exact h

/-- The predicate `LiveInit trace` holds exactly when the trace splits around a
successful initialize that no later cleanup follows. -/
theorem liveInit_iff (trace : List Event) :
    LiveInit trace ↔
      ∃ pre post,
        trace = pre ++ Event.initCall LoadOutcome.success :: post ∧
          Event.cleanupCall ∉ post := by
  induction trace with
  | nil =>
      constructor
      · intro h
        exact h.elim
      · rintro ⟨pre, post, h, -⟩
        exact (List.cons_ne_nil _ _ (List.append_eq_nil.mp h.symm).2).elim
  | cons e rest ih =>
      constructor
      · intro h
        cases e with
        | cleanupCall =>
            obtain ⟨pre, post, heq, hnc⟩ := ih.mp h
            exact ⟨Event.cleanupCall :: pre, post, by rw [heq]; rfl, hnc⟩
        | initCall o =>
            cases o with
            | success =>
                cases h with
                | inl hnc => exact ⟨[], rest, rfl, hnc⟩
                | inr hl =>
                    obtain ⟨pre, post, heq, hnc⟩ := ih.mp hl
                    exact ⟨Event.initCall LoadOutcome.success :: pre, post,
                      by rw [heq]; rfl, hnc⟩
            | failTokenizer =>
                obtain ⟨pre, post, heq, hnc⟩ := ih.mp h
                exact ⟨Event.initCall LoadOutcome.failTokenizer :: pre, post,
                  by rw [heq]; rfl, hnc⟩
            | failModel =>
                obtain ⟨pre, post, heq, hnc⟩ := ih.mp h
                exact ⟨Event.initCall LoadOutcome.failModel :: pre, post,
                  by rw [heq]; rfl, hnc⟩
            | failPipeline =>
                obtain ⟨pre, post, heq, hnc⟩ := ih.mp h
                exact ⟨Event.initCall LoadOutcome.failPipeline :: pre, post,
                  by rw [heq]; rfl, hnc⟩
      · rintro ⟨pre, post, heq, hnc⟩
        cases pre with
        | nil =>
            injection heq with h1 h2
            subst h1
            subst h2
            exact Or.inl hnc
        | cons p pre2 =>
            injection heq with h1 h2
            exact LiveInit.cons e (ih.mpr ⟨pre2, post, h2, hnc⟩)

/-- Readiness after folding lifecycle events over any starting state that
satisfies the pipeline invariant: the fold ends ready exactly when the
trace contains a live successful initialize, or the start state was ready
and no cleanup occurs at all. -/
theorem is_ready_foldl (trace : List Event) :
    ∀ s : AIService, (s.ready = true → s.pipeline.isSome = true) →
      (AIService.is_ready (trace.foldl stepEvent s) = true ↔
        (LiveInit trace ∨
          (AIService.is_ready s = true ∧ Event.cleanupCall ∉ trace))) := by
  induction trace with
  | nil =>
      intro s hs
      simp [LiveInit]
  | cons e rest ih =>
      intro s hs
      rw [List.foldl_cons]
      cases e with
      | cleanupCall =>
          have h1 := ih (stepEvent s Event.cleanupCall)
            (by simp [stepEvent, AIService.cleanup])
          rw [h1]
          have h2 : AIService.is_ready (stepEvent s Event.cleanupCall) = false := by
            simp [stepEvent, AIService.cleanup, AIService.is_ready]
          rw [h2]
          simp [LiveInit]
      | initCall o =>
          cases o with
          | success =>
              have h1 := ih (stepEvent s (Event.initCall LoadOutcome.success))
                (by simp [stepEvent, AIService.initializeService, AIService.loadModel])
              rw [h1]
              have h2 : AIService.is_ready
                  (stepEvent s (Event.initCall LoadOutcome.success)) = true := by
                simp [stepEvent, AIService.initializeService, AIService.loadModel,
                  AIService.is_ready]
              rw [h2]
              simp only [LiveInit, List.mem_cons, not_or]
              constructor
              · rintro (hl | ⟨-, hnc⟩)
                · exact Or.inl (Or.inr hl)
                · exact Or.inl (Or.inl hnc)
              · rintro ((hnc | hl) | ⟨-, -, hnc⟩)
                · exact Or.inr ⟨trivial, hnc⟩
                · exact Or.inl hl
                · exact Or.inr ⟨trivial, hnc⟩
          | failTokenizer =>
              have h1 := ih (stepEvent s (Event.initCall LoadOutcome.failTokenizer))
                (by intro hr; exact hs hr)
              rw [h1]
              have h2 : AIService.is_ready
                  (stepEvent s (Event.initCall LoadOutcome.failTokenizer)) =
                    AIService.is_ready s := rfl
              rw [h2]
              simp only [LiveInit, List.mem_cons, not_or]
              constructor
              · rintro (hl | ⟨hr, hnc⟩)
                · exact Or.inl hl
                · exact Or.inr ⟨hr, fun c => Event.noConfusion c, hnc⟩
              · rintro (hl | ⟨hr, -, hnc⟩)
                · exact Or.inl hl
                · exact Or.inr ⟨hr, hnc⟩
          | failModel =>
              have h1 := ih (stepEvent s (Event.initCall LoadOutcome.failModel))
                (by intro hr; exact hs hr)
              rw [h1]
              have h2 : AIService.is_ready
                  (stepEvent s (Event.initCall LoadOutcome.failModel)) =
                    AIService.is_ready s := rfl
              rw [h2]
              simp only [LiveInit, List.mem_cons, not_or]
              constructor
              · rintro (hl | ⟨hr, hnc⟩)
                · exact Or.inl hl
                · exact Or.inr ⟨hr, fun c => Event.noConfusion c, hnc⟩
              · rintro (hl | ⟨hr, -, hnc⟩)
                · exact Or.inl hl
                · exact Or.inr ⟨hr, hnc⟩
          | failPipeline =>
              have h1 := ih (stepEvent s (Event.initCall LoadOutcome.failPipeline))
                (by intro hr; exact hs hr)
              rw [h1]
              have h2 : AIService.is_ready
                  (stepEvent s (Event.initCall LoadOutcome.failPipeline)) =
                    AIService.is_ready s := rfl
              rw [h2]
              simp only [LiveInit, List.mem_cons, not_or]
              constructor
              · rintro (hl | ⟨hr, hnc⟩)
                · exact Or.inl hl
                · exact Or.inr ⟨hr, fun c => Event.noConfusion c, hnc⟩
              · rintro (hl | ⟨hr, -, hnc⟩)
                · exact Or.inl hl
                · exact Or.inr ⟨hr, hnc⟩

/-- Claim C3: starting from the fresh service, `is_ready()` is true after
a trace of lifecycle events exactly when the trace contains a successful
`initialize()` with no later `cleanup()` — so it is false before any
initialize completes, false after every cleanup, and false forever after
a failed initialize unless a later initialize succeeds (no implicit
retry). Moreover every failing initialize propagates its error and leaves
readiness unchanged. -/
theorem ready_lifecycle :
    (∀ trace : List Event,
        AIService.is_ready (runEvents trace) = true ↔
          ∃ pre post,
            trace = pre ++ Event.initCall LoadOutcome.success :: post ∧
              Event.cleanupCall ∉ post) ∧
      (∀ (s : AIService) (o : LoadOutcome), ¬ o = LoadOutcome.success →
        (AIService.initializeService s o).2.isSome = true ∧
          AIService.is_ready (AIService.initializeService s o).1 =
            AIService.is_ready s) := by
  constructor
  · intro trace
    have h := is_ready_foldl trace AIService.new
      (by intro hr; exact absurd hr (by simp [AIService.new]))
    rw [runEvents] at *
    rw [h]
    have hnew : AIService.is_ready AIService.new = false := rfl
    rw [hnew]
    simp only [Bool.false_eq_true, false_and, or_false]
    exact liveInit_iff trace
  · intro s o ho
    cases o with
    | success => exact absurd rfl ho
    | failTokenizer => exact ⟨rfl, rfl⟩
    | failModel => exact ⟨rfl, rfl⟩
    | failPipeline => exact ⟨rfl, rfl⟩

/-- Witness for C3: the one-event trace of a successful initialize is
ready, and a failing initialize from the fresh state returns an error. -/
theorem ready_lifecycle_witness :
    AIService.is_ready (runEvents [Event.initCall LoadOutcome.success]) = true ∧
      (AIService.initializeService AIService.new LoadOutcome.failModel).2.isSome = true :=
  ⟨(ready_lifecycle.1 [Event.initCall LoadOutcome.success]).mpr
      ⟨[], [], rfl, by simp⟩,
    (ready_lifecycle.2 AIService.new LoadOutcome.failModel
      (fun c => LoadOutcome.noConfusion c)).1⟩

end EducatorAI


namespace EducatorAI.LockModel

/-- Inductive invariant of the lock protocol: any thread inside the
`with self._lock` region is the current lock holder. -/
theorem lock_invariant {n : Nat} {s : LockState n} (h : Reachable n s) :
    ∀ t : Fin n, inCritical (s.pcs t) → s.holder = some t := by
  induction h with
  | start =>
      intro t ht
      simp [initLockState, inCritical] at ht
  | @step s1 s2 hr hstep ih =>
      intro t ht
      cases hstep with
      | acquire u _ hpc hold =>
          by_cases htu : t = u
          · subst htu
            rfl
          · exfalso
            have ht2 : inCritical (s1.pcs t) := by
              simpa [Function.update_noteq htu] using ht
            have h1 := ih t ht2
            rw [hold] at h1
            exact Option.noConfusion h1
      | startCall u _ hpc =>
          by_cases htu : t = u
          · subst htu
            exact ih t (Or.inl hpc)
          · have ht2 : inCritical (s1.pcs t) := by
              simpa [Function.update_noteq htu] using ht
            exact ih t ht2
      | endCall u _ hpc =>
          by_cases htu : t = u
          · subst htu
            exact ih t (Or.inr (Or.inl hpc))
          · have ht2 : inCritical (s1.pcs t) := by
              simpa [Function.update_noteq htu] using ht
            exact ih t ht2
      | release u _ hpc hold =>
          exfalso
          by_cases htu : t = u
          · subst htu
            simp [Function.update_same, inCritical] at ht
          · have ht2 : inCritical (s1.pcs t) := by
              simpa [Function.update_noteq htu] using ht
            have h1 := ih t ht2
            rw [hold] at h1
            exact htu (Option.some.inj h1).symm

/-- Claim C4: in every reachable interleaving of `n` concurrent
`_generate_text_sync` calls, a thread inside the `with self._lock` region
holds the exclusive guard for the whole region — which contains the full
pipeline (inference) call — and therefore at most one thread is executing
the inference call at any time: calls never interleave at the resource
boundary. -/
theorem lock_mutual_exclusion {n : Nat} {s : LockState n} (h : Reachable n s) :
    (∀ t : Fin n, inCritical (s.pcs t) → s.holder = some t) ∧
      (∀ t1 t2 : Fin n, s.pcs t1 = ThreadPC.inCall → s.pcs t2 = ThreadPC.inCall →
        t1 = t2) := by
  refine ⟨lock_invariant h, fun t1 t2 h1 h2 => ?_⟩
  have e1 := lock_invariant h t1 (Or.inr (Or.inl h1))
  have e2 := lock_invariant h t2 (Or.inr (Or.inl h2))
  exact Option.some.inj (e1.symm.trans e2)

/-- A concrete reachable two-thread state in which thread 0 has acquired
the lock and entered the pipeline call. -/
def wLockState : LockState 2 :=
  { holder := some 0
    pcs := Function.update (Function.update (initLockState 2).pcs 0 ThreadPC.locked) 0
      ThreadPC.inCall }

/-- Witness for C4: the state in which thread 0 is mid-inference is
reachable, and the mutual-exclusion theorem applied there shows thread 0
holds the guard. -/
theorem lock_mutual_exclusion_witness :
    Reachable 2 wLockState ∧ wLockState.holder = some (0 : Fin 2) := by
  have hreach : Reachable 2 wLockState :=
    Reachable.step
      (Reachable.step Reachable.start (LockStep.acquire 0 (initLockState 2) rfl rfl))
      (LockStep.startCall 0
        { holder := some 0, pcs := Function.update (initLockState 2).pcs 0 ThreadPC.locked }
        rfl)
  exact ⟨hreach, (lock_mutual_exclusion hreach).1 0 (Or.inr (Or.inl rfl))⟩

end EducatorAI.LockModel
